import Mathlib

/-!
Verification of the client-side session and conversation synchronization
layer of a React chat front-end: the token-refreshing axios interceptors
and the react-query cache-invalidation contract.

The definitions below are a shallow embedding of
`frontend/src/services/api.ts` (class `ApiService`: `setupInterceptors`,
`handleError`, `logout`) and of the react-query mutations in the hooks
module (`useLLM`, `useAuth`).  JavaScript values stored in
`localStorage` are `Option String` (a `null` result is `none`); JS
truthiness of a string is "present and non-empty".
-/

namespace ReactTimeChat

/-- The Credential Store: the `access_token` / `refresh_token` slots of
`localStorage`.  `none` models a key that was never set or was removed. -/
structure Store where
  access : Option String
  refresh : Option String
deriving DecidableEq, Repr

/-- JavaScript truthiness of a `localStorage.getItem` result: `null` and
the empty string are falsy, every other string is truthy. -/
def jsTruthyStr : Option String → Bool
  | none => false
  | some s => s ≠ ""

/-- An axios request config, restricted to the fields the interceptors
touch: the `_retry` marker and the `Authorization` header. -/
structure ReqConfig where
  retry : Bool
  authHeader : Option String
deriving DecidableEq, Repr

/-- The body of a failed HTTP response (`error.response.data`): either a
plain string or a JSON object whose `message` / `detail` / `error`
fields may each be present or absent. -/
inductive ResponseData where
  | str (s : String)
  | obj (message detail error : Option String)
deriving DecidableEq, Repr

/-- JavaScript truthiness of `error.response.data`: an empty string body
is falsy, a non-empty string and any object are truthy. -/
def dataTruthy : ResponseData → Bool
  | .str s => s ≠ ""
  | .obj _ _ _ => true

/-- An `AxiosError` as seen by the response interceptor: the original
request config, `error.response?.status` (`none` when no response was
received) and `error.response?.data`. -/
structure AxiosErr where
  config : ReqConfig
  status : Option Nat
  data : Option ResponseData
deriving DecidableEq, Repr

/-- The normalized `ApiError` produced by `ApiService.handleError`. -/
structure ApiError where
  message : String
  status : Nat
  details : Option ResponseData
deriving DecidableEq, Repr

/-- `ApiService.handleError`: builds the normalized `ApiError` from an
`AxiosError`.  Starts from the generic message and `status || 500`; when
the response body is truthy it overwrites the message from, in order, a
plain-string body, a truthy `message` field, a truthy `detail` field, a
truthy `error` field, and stores the raw body as `details`. -/
def handleError (e : AxiosErr) : ApiError :=
  let base : ApiError :=
    { message := "An unexpected error occurred"
      status := e.status.getD 500
      details := none }
  match e.data with
  | none => base
  | some d =>
    if dataTruthy d then
      let msg :=
        match d with
        | .str s => s
        | .obj m dt er =>
          if jsTruthyStr m then m.getD ""
          else if jsTruthyStr dt then dt.getD ""
          else if jsTruthyStr er then er.getD ""
          else base.message
      { message := msg, status := base.status, details := some d }
    else base

/-- The request interceptor: reads `access_token` from the store and,
when it is truthy, sets `Authorization: Bearer <token>` on the config;
otherwise returns the config unchanged. -/
def onRequest (st : Store) (config : ReqConfig) : ReqConfig :=
  if jsTruthyStr st.access then
    { config with authHeader := some ("Bearer " ++ st.access.getD "") }
  else config

/-- The value a request's caller eventually observes: a resolved
response (body abstracted to a string) or a rejection carrying a
normalized `ApiError`. -/
inductive Outcome where
  | success (body : String)
  | failure (e : ApiError)
deriving DecidableEq, Repr

/-- What the response interceptor's error handler returns: either the
outcome of the re-issued request (`return this.api(originalRequest)`) or
`Promise.reject(this.handleError(error))`. -/
inductive InterceptResult where
  | retriedOutcome (o : Outcome)
  | rejected (e : ApiError)
deriving DecidableEq, Repr

/-- Whether an interceptor result is a rejection. -/
def InterceptResult.isRejected : InterceptResult → Bool
  | .rejected _ => true
  | .retriedOutcome _ => false

/-- Observable side effects of one run of the response interceptor's
error handler. -/
structure InterceptEffects where
  refreshCalled : Bool
  retryIssued : Bool
  loggedOut : Bool
  redirectedToLogin : Bool
deriving DecidableEq, Repr

/-- The full result of one run of the error handler: the value given to
the caller, the credential store afterwards, the side effects, and the
config re-issued through `this.api` (if any). -/
structure RunResult where
  result : InterceptResult
  store : Store
  fx : InterceptEffects
  reissued : Option ReqConfig
deriving DecidableEq, Repr

/-- No side effects. -/
def InterceptEffects.none : InterceptEffects :=
  { refreshCalled := false, retryIssued := false
    loggedOut := false, redirectedToLogin := false }

/-- The response interceptor's error handler from
`ApiService.setupInterceptors`, as seen by one awaiting run.  On a 401
for a not-yet-retried request it marks the request retried, and if
`refresh_token` is truthy it awaits `refreshToken`; on refresh success
it stores the new access token, sets the new Bearer header on the
original config and returns the re-issued request's outcome; on a
SETTLED rejection of the refresh promise it runs `logout()` (clearing
both tokens) and redirects to `/login`.  Every other path falls through
to `Promise.reject(handleError(error))`.  The environment is explicit:
`refreshResponse` is the settlement of the awaited refresh promise,
`retryF` maps the re-issued config to the outcome the caller of
`this.api` observes.  Note that `refreshToken` posts through the same
intercepted instance, so in the program the `.error` case arises only
when the refresh POST fails other than with a 401-while-a-refresh-token-
is-stored (e.g. a non-401 status or no response): a 401-answered refresh
instead re-enters the interceptor and issues a further refresh before
any settlement reaches this frame — that re-entrant path is modelled
separately by `runRefreshPost` / `handleUserRejected` below. -/
def onResponseRejected (st : Store) (err : AxiosErr)
    (refreshResponse : Except ApiError String)
    (retryF : ReqConfig → Outcome) : RunResult :=
  let originalRequest := err.config
  if err.status == some 401 && !originalRequest.retry then
    let originalRequest := { originalRequest with retry := true }
    if jsTruthyStr st.refresh then
      match refreshResponse with
      | .ok access =>
        let st := { st with access := some access }
        let originalRequest :=
          { originalRequest with authHeader := some ("Bearer " ++ access) }
        { result := .retriedOutcome (retryF originalRequest)
          store := st
          fx := { refreshCalled := true, retryIssued := true
                  loggedOut := false, redirectedToLogin := false }
          reissued := some originalRequest }
      | .error _ =>
        { result := .rejected (handleError err)
          store := { access := none, refresh := none }
          fx := { refreshCalled := true, retryIssued := false
                  loggedOut := true, redirectedToLogin := true }
          reissued := none }
    else
      { result := .rejected (handleError err), store := st
        fx := InterceptEffects.none, reissued := none }
  else
    { result := .rejected (handleError err), store := st
      fx := InterceptEffects.none, reissued := none }

/-- `ApiService.logout`: when a refresh token is stored it POSTs
`/auth/logout/` and swallows any error of that call (`try`/`catch` with
only a `console.error`); afterwards it always removes both tokens.
`postResult` is the server's answer to the logout POST. -/
def apiLogout (st : Store) (postResult : Except ApiError Unit) : Store :=
  if jsTruthyStr st.refresh then
    match postResult with
    | .ok _ => { access := none, refresh := none }
    | .error _ => { access := none, refresh := none }
  else { access := none, refresh := none }

/-- One element of a react-query query key (the source uses arrays
mixing strings and numeric ids, e.g. `['conversation', id]`). -/
inductive KeyPart where
  | str (s : String)
  | num (n : Nat)
deriving DecidableEq, Repr

/-- A react-query query key. -/
abbrev QueryKey := List KeyPart

/-- The query cache, reduced to what invalidation observes: the list of
invalidation filters applied so far (`queryClient.invalidateQueries`
marks stale every query whose key extends the filter). -/
structure Cache where
  invalidated : List QueryKey
deriving DecidableEq, Repr

/-- react-query's default fuzzy key matching: a filter matches every
query key it is a prefix of. -/
def keyMatches (filter k : QueryKey) : Bool :=
  List.isPrefixOf filter k

/-- `queryClient.invalidateQueries(filter)`. -/
def invalidateQueries (filter : QueryKey) (c : Cache) : Cache :=
  { c with invalidated := filter :: c.invalidated }

/-- Whether a query key has been marked stale, so that its next read
re-fetches. -/
def Cache.isStale (c : Cache) (k : QueryKey) : Bool :=
  c.invalidated.any (fun f => keyMatches f k)

/-- `queryClient.clear()`: drops everything; afterwards no stale marks
remain either. -/
def Cache.clear (_c : Cache) : Cache :=
  { invalidated := [] }

/-- `sendMessageMutation.onSuccess` in `useLLM`:
`queryClient.invalidateQueries(['conversations'])`. -/
def sendMessageOnSuccess (c : Cache) : Cache :=
  invalidateQueries [KeyPart.str "conversations"] c

/-- `archiveConversationMutation.onSuccess` in `useLLM`:
`queryClient.invalidateQueries(['conversations'])`. -/
def archiveConversationOnSuccess (c : Cache) : Cache :=
  invalidateQueries [KeyPart.str "conversations"] c

/-- `createConversationMutation.onSuccess` in `useLLM`. -/
def createConversationOnSuccess (c : Cache) : Cache :=
  invalidateQueries [KeyPart.str "conversations"] c

/-- `updateConversationMutation.onSuccess` in `useLLM`. -/
def updateConversationOnSuccess (c : Cache) : Cache :=
  invalidateQueries [KeyPart.str "conversations"] c

/-- `deleteConversationMutation.onSuccess` in `useLLM`. -/
def deleteConversationOnSuccess (c : Cache) : Cache :=
  invalidateQueries [KeyPart.str "conversations"] c

/-- `unarchiveConversationMutation.onSuccess` in `useLLM`. -/
def unarchiveConversationOnSuccess (c : Cache) : Cache :=
  invalidateQueries [KeyPart.str "conversations"] c

/-- `updatePreferencesMutation.onSuccess` in `useLLM`:
`queryClient.invalidateQueries(['preferences'])`. -/
def updatePreferencesOnSuccess (c : Cache) : Cache :=
  invalidateQueries [KeyPart.str "preferences"] c

/-- `logoutMutation.onSuccess` in `useAuth`: `setUser(null)` then
`queryClient.clear()`. -/
def logoutMutationOnSuccess (c : Cache) : Cache :=
  c.clear

/-- The error branch of `logoutMutation` in `useAuth`: the comment in
the source says the local state is still cleared even if logout fails,
and it runs `setUser(null); queryClient.clear()`. -/
def logoutMutationOnFailure (c : Cache) : Cache :=
  c.clear

/-- The invalidation set the spec claims for `sendMessage` and for
`archive` on conversation `id`: both the `conversations` list key and
the specific `conversation:<id>` key (stated from the spec's words, for
comparison with the handlers above). -/
def specClaimedMessageAndArchiveFilters (id : Nat) : List QueryKey :=
  [[KeyPart.str "conversations"], [KeyPart.str "conversation", KeyPart.num id]]

/-- Number of refresh POSTs issued when each error in `errs` is handled
by its own run of the response interceptor against the same store
snapshot — the situation of several requests all rejecting with 401
before any refresh resolves.  The handler closes over no shared
in-flight marker, so each run decides independently. -/
def concurrentRefreshCalls (st : Store) (errs : List AxiosErr)
    (refreshResponse : Except ApiError String)
    (retryF : ReqConfig → Outcome) : Nat :=
  (errs.map (fun e =>
    if (onResponseRejected st e refreshResponse retryF).fx.refreshCalled
    then 1 else 0)).sum

/-- The message-extraction rule as the spec words it: take the first
truthy candidate among, in order, a plain-string body and the `message`,
`detail`, `error` fields, and fall back to the generic message. -/
def specMessageCandidates : ResponseData → List (Option String)
  | .str s => [some s]
  | .obj m dt er => [m, dt, er]

/-- A candidate contributes its value exactly when it is a truthy
string. -/
def truthyValue (o : Option String) : Option String :=
  o.bind (fun s => if s = "" then none else some s)

/-- The spec's description of the extracted message, as a definition of
its own (first match in the stated order, else the generic message). -/
def specExtractedMessage (e : AxiosErr) : String :=
  match e.data with
  | none => "An unexpected error occurred"
  | some d =>
    ((specMessageCandidates d).findSome? truthyValue).getD
      "An unexpected error occurred"

/-- The server's answer to one refresh POST (`POST /auth/token/refresh/`):
either a 2xx carrying the new access token, or a failure with a status
(`none` when no response was received) and a body. -/
inductive RefreshAnswer where
  | granted (access : String)
  | denied (status : Option Nat) (data : Option ResponseData)
deriving DecidableEq, Repr

/-- The observable state of the web layer while the interceptor handles
failures: the credential store, how many refresh POSTs have been issued
to the server, and whether the logout/redirect teardown has run. -/
structure WebState where
  store : Store
  refreshPosts : Nat
  loggedOut : Bool
  redirectedToLogin : Bool
deriving DecidableEq, Repr

/-- How the promise of one refresh POST settles for the frame awaiting
it: resolved with an access token, rejected with a normalized error, or
never settled within the modelled recursion depth. -/
inductive RefreshSettle where
  | resolvedWith (access : String)
  | rejectedWith (e : ApiError)
  | pending
deriving DecidableEq, Repr

/-- Issuing one refresh POST through `this.api` and settling its
promise.  `refreshToken` (`api.ts`) posts via the same intercepted
instance, so when the server denies the POST the same response
interceptor handles the denial before the awaiting frame sees anything:
a 401 denial of a not-yet-retried refresh POST marks it retried and,
with a refresh token stored, awaits a FURTHER refresh POST (a fresh
config each time, so `_retry` never blocks the recursion); if that inner
one resolves, the new access token is stored and the denied refresh POST
is re-issued once with the new Bearer header; if it settles rejected,
the catch runs the logout teardown and the frame rejects with the
normalized denial.  Any other denial rejects directly.  `fuel` bounds
the modelled recursion depth; exhausting it yields `pending` (no
settlement within that depth).  `answers` gives the server's answer to
the n-th refresh POST issued. -/
def runRefreshPost : Nat → WebState → (Nat → RefreshAnswer) → ReqConfig →
    RefreshSettle × WebState
  | fuel, ws, answers, cfg =>
    let idx := ws.refreshPosts
    let ws1 : WebState := { ws with refreshPosts := ws.refreshPosts + 1 }
    match answers idx with
    | .granted access => (.resolvedWith access, ws1)
    | .denied status data =>
      if status == some 401 && !cfg.retry then
        if jsTruthyStr ws1.store.refresh then
          match fuel with
          | 0 => (.pending, ws1)
          | fuel' + 1 =>
            let nested :=
              runRefreshPost fuel' ws1 answers (onRequest ws1.store ⟨false, none⟩)
            match nested.1 with
            | .resolvedWith access =>
              let ws2 : WebState :=
                { nested.2 with
                  store := { nested.2.store with access := some access } }
              runRefreshPost fuel' ws2 answers ⟨true, some ("Bearer " ++ access)⟩
            | .rejectedWith _ =>
              ( .rejectedWith (handleError ⟨cfg, status, data⟩),
                { nested.2 with store := { access := none, refresh := none },
                                loggedOut := true, redirectedToLogin := true } )
            | .pending => (.pending, nested.2)
        else (.rejectedWith (handleError ⟨cfg, status, data⟩), ws1)
      else (.rejectedWith (handleError ⟨cfg, status, data⟩), ws1)

/-- How the user request's promise settles: with an interceptor result,
or not at all within the modelled depth. -/
inductive UserSettle where
  | settled (r : InterceptResult)
  | pending
deriving DecidableEq, Repr

/-- The error handler for a user request, with the refresh promise
settled by the re-entrant `runRefreshPost` model rather than given as an
oracle: the full source behavior of `setupInterceptors` including the
fact that the refresh POST travels through the same intercepted
instance. -/
def handleUserRejected (fuel : Nat) (ws : WebState) (err : AxiosErr)
    (answers : Nat → RefreshAnswer) (retryF : ReqConfig → Outcome) :
    UserSettle × WebState :=
  if err.status == some 401 && !err.config.retry then
    if jsTruthyStr ws.store.refresh then
      let r := runRefreshPost fuel ws answers (onRequest ws.store ⟨false, none⟩)
      match r.1 with
      | .resolvedWith access =>
        let ws2 : WebState :=
          { r.2 with store := { r.2.store with access := some access } }
        ( .settled (.retriedOutcome (retryF ⟨true, some ("Bearer " ++ access)⟩)),
          ws2 )
      | .rejectedWith _ =>
        ( .settled (.rejected (handleError err)),
          { r.2 with store := { access := none, refresh := none },
                     loggedOut := true, redirectedToLogin := true } )
      | .pending => (.pending, r.2)
    else (.settled (.rejected (handleError err)), ws)
  else (.settled (.rejected (handleError err)), ws)

/-- Helper: a candidate's truthy value is its payload exactly when the
candidate is truthy. -/
theorem truthyValue_eq (o : Option String) :
    truthyValue o = if jsTruthyStr o then some (o.getD "") else none := by
  rcases o with _ | s
  · rfl
  · by_cases hs : s = "" <;> simp [truthyValue, jsTruthyStr, hs]

/-- C1: for a request failing with 401 and not yet marked retried, when
a refresh token is stored and the refresh call succeeds with a new
access token, the interceptor stores the new access token, re-issues the
original request exactly once with the new Bearer token (and the retried
mark set), and returns that retried request's outcome to the caller, so
the caller never observes a rejection with the original 401. -/
theorem refresh_success_retries_once
    (st : Store) (err : AxiosErr) (access : String)
    (retryF : ReqConfig → Outcome)
    (h401 : err.status = some 401) (hmark : err.config.retry = false)
    (hrt : jsTruthyStr st.refresh = true) :
    (onResponseRejected st err (.ok access) retryF).store.access = some access ∧
    (onResponseRejected st err (.ok access) retryF).reissued =
      some ⟨true, some ("Bearer " ++ access)⟩ ∧
    (onResponseRejected st err (.ok access) retryF).result =
      .retriedOutcome (retryF ⟨true, some ("Bearer " ++ access)⟩) ∧
    (onResponseRejected st err (.ok access) retryF).fx.refreshCalled = true ∧
    (onResponseRejected st err (.ok access) retryF).fx.retryIssued = true ∧
    (onResponseRejected st err (.ok access) retryF).result.isRejected = false := by
  simp [onResponseRejected, h401, hmark, hrt, InterceptResult.isRejected]

/-- Witness for C1 at a concrete store, error, refresh result and retry
outcome. -/
theorem refresh_success_retries_once_witness :
    (⟨⟨false, none⟩, some 401, none⟩ : AxiosErr).status = some 401 ∧
    (⟨⟨false, none⟩, some 401, none⟩ : AxiosErr).config.retry = false ∧
    jsTruthyStr (⟨some "old", some "r"⟩ : Store).refresh = true ∧
    ((onResponseRejected ⟨some "old", some "r"⟩ ⟨⟨false, none⟩, some 401, none⟩
        (.ok "new") (fun _ => Outcome.success "ok")).store.access = some "new" ∧
     (onResponseRejected ⟨some "old", some "r"⟩ ⟨⟨false, none⟩, some 401, none⟩
        (.ok "new") (fun _ => Outcome.success "ok")).reissued =
       some ⟨true, some ("Bearer " ++ "new")⟩ ∧
     (onResponseRejected ⟨some "old", some "r"⟩ ⟨⟨false, none⟩, some 401, none⟩
        (.ok "new") (fun _ => Outcome.success "ok")).result =
       .retriedOutcome (Outcome.success "ok") ∧
     (onResponseRejected ⟨some "old", some "r"⟩ ⟨⟨false, none⟩, some 401, none⟩
        (.ok "new") (fun _ => Outcome.success "ok")).fx.refreshCalled = true ∧
     (onResponseRejected ⟨some "old", some "r"⟩ ⟨⟨false, none⟩, some 401, none⟩
        (.ok "new") (fun _ => Outcome.success "ok")).fx.retryIssued = true ∧
     (onResponseRejected ⟨some "old", some "r"⟩ ⟨⟨false, none⟩, some 401, none⟩
        (.ok "new") (fun _ => Outcome.success "ok")).result.isRejected = false) :=
  ⟨rfl, rfl, by decide,
   refresh_success_retries_once ⟨some "old", some "r"⟩ ⟨⟨false, none⟩, some 401, none⟩
     "new" (fun _ => Outcome.success "ok") rfl rfl (by decide)⟩

/-- C2: a request already marked retried that fails again with 401, and
a request failing with any non-401 status, both propagate the
normalized error directly: no refresh call, no retry, no logout, no
store change. -/
theorem retried_or_non401_propagates
    (st : Store) (err : AxiosErr)
    (refreshResponse : Except ApiError String) (retryF : ReqConfig → Outcome)
    (h : err.status ≠ some 401 ∨ err.config.retry = true) :
    onResponseRejected st err refreshResponse retryF =
      ⟨.rejected (handleError err), st, InterceptEffects.none, none⟩ := by
  rcases h with h | h
  · simp [onResponseRejected, h]
  · simp [onResponseRejected, h]

/-- Witness for C2 at a request already marked retried that fails with
401 again. -/
theorem retried_or_non401_propagates_witness :
    ((⟨⟨true, none⟩, some 401, none⟩ : AxiosErr).status ≠ some 401 ∨
      (⟨⟨true, none⟩, some 401, none⟩ : AxiosErr).config.retry = true) ∧
    onResponseRejected ⟨some "a", some "r"⟩ ⟨⟨true, none⟩, some 401, none⟩
        (.ok "x") (fun _ => Outcome.success "y") =
      ⟨.rejected (handleError ⟨⟨true, none⟩, some 401, none⟩),
       ⟨some "a", some "r"⟩, InterceptEffects.none, none⟩ :=
  ⟨Or.inr rfl,
   retried_or_non401_propagates ⟨some "a", some "r"⟩ ⟨⟨true, none⟩, some 401, none⟩
     (.ok "x") (fun _ => Outcome.success "y") (Or.inr rfl)⟩

/-- Helper: the request interceptor never touches the retried mark. -/
theorem onRequest_retry (st : Store) (c : ReqConfig) :
    (onRequest st c).retry = c.retry := by
  unfold onRequest
  split <;> rfl

/-- Helper: while the server answers every refresh POST with 401, a
not-yet-retried refresh POST never settles with a stored refresh token:
each handler level issues one more refresh POST and awaits it, so at
recursion depth `fuel` the frame is still pending, `fuel + 1` refresh
POSTs have gone out, and the store and teardown flags are untouched. -/
theorem runRefreshPost_all401_pending (bodyData : Option ResponseData) :
    ∀ (fuel : Nat) (ws : WebState) (cfg : ReqConfig),
      cfg.retry = false → jsTruthyStr ws.store.refresh = true →
      runRefreshPost fuel ws (fun _ => .denied (some 401) bodyData) cfg =
        (.pending, { ws with refreshPosts := ws.refreshPosts + fuel + 1 }) := by
  intro fuel
  induction fuel with
  | zero =>
    intro ws cfg hr ht
    simp [runRefreshPost, hr, ht]
  | succ n ih =>
    intro ws cfg hr ht
    have hnested :=
      ih { ws with refreshPosts := ws.refreshPosts + 1 }
        (onRequest ({ ws with refreshPosts := ws.refreshPosts + 1 } : WebState).store
          ⟨false, none⟩)
        (by rw [onRequest_retry]) (by simpa using ht)
    simp only [runRefreshPost, hr, ht, hnested]
    simp
    omega

/-- Helper: a refresh POST denied with a non-401 status settles as a
rejection at once — this (and only this kind of denial) is what reaches
the interceptor's catch and is what `onResponseRejected`'s `.error`
environment stands for. -/
theorem refresh_denied_non401_settles_rejected
    (fuel : Nat) (ws : WebState) (cfg : ReqConfig)
    (bodyData : Option ResponseData) :
    runRefreshPost fuel ws (fun _ => .denied (some 400) bodyData) cfg =
      (.rejectedWith (handleError ⟨cfg, some 400, bodyData⟩),
       { ws with refreshPosts := ws.refreshPosts + 1 }) := by
  cases fuel <;> simp [runRefreshPost]

/-- C4 (evaluation at the failing input): for a request failing 401 with
both tokens stored but the refresh token invalid — the server answers
every refresh POST with 401, the claim's own cited scenario — the
refresh POST re-enters the same interceptor and recurses into further
refresh POSTs instead of reaching the catch: at every modelled depth the
store still holds both (stale) tokens, no logout and no redirect have
happened, `fuel + 1` refresh POSTs have been issued, and the caller's
promise has not settled — in particular the original failure is never
surfaced, contradicting the claim. -/
theorem refresh_denied_401_recurses_without_teardown :
    ∀ fuel : Nat,
      handleUserRejected fuel ⟨⟨some "stale", some "r"⟩, 0, false, false⟩
          ⟨⟨false, none⟩, some 401, none⟩
          (fun _ => RefreshAnswer.denied (some 401) none)
          (fun _ => Outcome.success "ok") =
        (UserSettle.pending, ⟨⟨some "stale", some "r"⟩, fuel + 1, false, false⟩) := by
  intro fuel
  have h :=
    runRefreshPost_all401_pending none fuel
      ⟨⟨some "stale", some "r"⟩, 0, false, false⟩
      (onRequest ⟨some "stale", some "r"⟩ ⟨false, none⟩)
      (by rw [onRequest_retry]) (by decide)
  have ht : jsTruthyStr (some "r") = true := by decide
  simp [handleUserRejected, h, ht]

/-- C7: a successful refresh replaces only the access token; the stored
refresh token is exactly what it was before. -/
theorem refresh_success_preserves_refresh_token
    (st : Store) (err : AxiosErr) (access : String)
    (retryF : ReqConfig → Outcome)
    (h401 : err.status = some 401) (hmark : err.config.retry = false)
    (hrt : jsTruthyStr st.refresh = true) :
    (onResponseRejected st err (.ok access) retryF).store.refresh = st.refresh ∧
    (onResponseRejected st err (.ok access) retryF).store.access = some access := by
  simp [onResponseRejected, h401, hmark, hrt]

/-- Witness for C7 at a concrete refresh success. -/
theorem refresh_success_preserves_refresh_token_witness :
    (⟨⟨false, none⟩, some 401, none⟩ : AxiosErr).status = some 401 ∧
    (⟨⟨false, none⟩, some 401, none⟩ : AxiosErr).config.retry = false ∧
    jsTruthyStr (⟨some "old", some "keepme"⟩ : Store).refresh = true ∧
    ((onResponseRejected ⟨some "old", some "keepme"⟩ ⟨⟨false, none⟩, some 401, none⟩
        (.ok "new") (fun _ => Outcome.success "ok")).store.refresh = some "keepme" ∧
     (onResponseRejected ⟨some "old", some "keepme"⟩ ⟨⟨false, none⟩, some 401, none⟩
        (.ok "new") (fun _ => Outcome.success "ok")).store.access = some "new") :=
  ⟨rfl, rfl, by decide,
   refresh_success_preserves_refresh_token ⟨some "old", some "keepme"⟩
     ⟨⟨false, none⟩, some 401, none⟩ "new" (fun _ => Outcome.success "ok")
     rfl rfl (by decide)⟩

/-- C10: a 401 on a not-yet-retried request while no refresh token is
stored triggers neither a refresh nor a logout: the store (including the
possibly stale access token) is untouched and the normalized 401
propagates to the caller. -/
theorem no_refresh_token_propagates_401_untouched
    (st : Store) (err : AxiosErr)
    (refreshResponse : Except ApiError String) (retryF : ReqConfig → Outcome)
    (h401 : err.status = some 401) (hmark : err.config.retry = false)
    (hrt : jsTruthyStr st.refresh = false) :
    onResponseRejected st err refreshResponse retryF =
      ⟨.rejected (handleError err), st, InterceptEffects.none, none⟩ := by
  simp [onResponseRejected, h401, hmark, hrt]

/-- Witness for C10: stale access token, no refresh token. -/
theorem no_refresh_token_propagates_401_untouched_witness :
    (⟨⟨false, none⟩, some 401, none⟩ : AxiosErr).status = some 401 ∧
    (⟨⟨false, none⟩, some 401, none⟩ : AxiosErr).config.retry = false ∧
    jsTruthyStr (⟨some "stale", none⟩ : Store).refresh = false ∧
    onResponseRejected ⟨some "stale", none⟩ ⟨⟨false, none⟩, some 401, none⟩
        (.ok "x") (fun _ => Outcome.success "y") =
      ⟨.rejected (handleError ⟨⟨false, none⟩, some 401, none⟩),
       ⟨some "stale", none⟩, InterceptEffects.none, none⟩ :=
  ⟨rfl, rfl, rfl,
   no_refresh_token_propagates_401_untouched ⟨some "stale", none⟩
     ⟨⟨false, none⟩, some 401, none⟩ (.ok "x") (fun _ => Outcome.success "y")
     rfl rfl rfl⟩

/-- C3 (evaluation at the failing input): two requests that both reject
with 401 while no refresh is in flight — neither marked retried, a
refresh token stored — are each handled by an interceptor run that
closes over no shared in-flight marker, so TWO refresh POSTs are issued,
not the single shared one the spec requires. -/
theorem two_concurrent_401s_issue_two_refreshes :
    concurrentRefreshCalls ⟨some "stale", some "r"⟩
      [⟨⟨false, none⟩, some 401, none⟩, ⟨⟨false, none⟩, some 401, none⟩]
      (.ok "new") (fun _ => Outcome.success "ok") = 2 ∧
    concurrentRefreshCalls ⟨some "stale", some "r"⟩
      [⟨⟨false, none⟩, some 401, none⟩, ⟨⟨false, none⟩, some 401, none⟩]
      (.ok "new") (fun _ => Outcome.success "ok") ≠ 1 := by
  constructor <;> decide

/-- C5 counterexample: on a fresh cache, neither the send-message
success handler nor the archive success handler marks the
`conversation:<id>` key (here id 1) stale — only the `conversations`
list key — so the next read of `conversation:1` does not re-fetch,
contradicting the claimed invalidation sets. -/
theorem send_and_archive_leave_conversation_key_fresh :
    (sendMessageOnSuccess ⟨[]⟩).isStale
      [KeyPart.str "conversation", KeyPart.num 1] = false ∧
    (archiveConversationOnSuccess ⟨[]⟩).isStale
      [KeyPart.str "conversation", KeyPart.num 1] = false ∧
    (sendMessageOnSuccess ⟨[]⟩).isStale [KeyPart.str "conversations"] = true ∧
    (archiveConversationOnSuccess ⟨[]⟩).isStale [KeyPart.str "conversations"] = true ∧
    ((specClaimedMessageAndArchiveFilters 1).all
      (fun f => (archiveConversationOnSuccess ⟨[]⟩).isStale f)) = false := by
  decide

/-- C5 as amended: each mutation's success handler invalidates exactly
its declared filter set — the conversation mutations (create, update,
delete, archive, unarchive, send message) invalidate only the
`conversations` list filter, and the preferences mutation only the
`preferences` filter: afterwards a key is stale iff it matches that one
filter or was already stale. -/
theorem mutations_invalidate_only_declared_filters :
    ∀ (c : Cache) (k : QueryKey),
      (sendMessageOnSuccess c).isStale k =
        (keyMatches [KeyPart.str "conversations"] k || c.isStale k) ∧
      (archiveConversationOnSuccess c).isStale k =
        (keyMatches [KeyPart.str "conversations"] k || c.isStale k) ∧
      (createConversationOnSuccess c).isStale k =
        (keyMatches [KeyPart.str "conversations"] k || c.isStale k) ∧
      (updateConversationOnSuccess c).isStale k =
        (keyMatches [KeyPart.str "conversations"] k || c.isStale k) ∧
      (deleteConversationOnSuccess c).isStale k =
        (keyMatches [KeyPart.str "conversations"] k || c.isStale k) ∧
      (unarchiveConversationOnSuccess c).isStale k =
        (keyMatches [KeyPart.str "conversations"] k || c.isStale k) ∧
      (updatePreferencesOnSuccess c).isStale k =
        (keyMatches [KeyPart.str "preferences"] k || c.isStale k) := by
  intro c k
  simp [sendMessageOnSuccess, archiveConversationOnSuccess,
        createConversationOnSuccess, updateConversationOnSuccess,
        deleteConversationOnSuccess, unarchiveConversationOnSuccess,
        updatePreferencesOnSuccess, invalidateQueries, Cache.isStale]

/-- C6: the normalized error's message is exactly the first truthy
candidate in the spec's order (plain-string body, `message`, `detail`,
`error`, generic fallback), its status is the response status (500 when
no response), and its details are the raw body whenever the body is
truthy. -/
theorem handleError_matches_spec_order (e : AxiosErr) :
    (handleError e).message = specExtractedMessage e ∧
    (handleError e).status = e.status.getD 500 ∧
    (handleError e).details =
      e.data.bind (fun d => if dataTruthy d then some d else none) := by
  obtain ⟨cfg, status, data⟩ := e
  rcases data with _ | d
  · simp [handleError, specExtractedMessage]
  · rcases d with s | ⟨m, dt, er⟩
    · by_cases hs : s = "" <;>
        simp [handleError, specExtractedMessage, specMessageCandidates,
              truthyValue, dataTruthy, hs, List.findSome?]
    · by_cases h1 : jsTruthyStr m = true <;>
        by_cases h2 : jsTruthyStr dt = true <;>
        by_cases h3 : jsTruthyStr er = true <;>
        simp [handleError, specExtractedMessage, specMessageCandidates,
              dataTruthy, truthyValue_eq, h1, h2, h3, List.findSome?]

/-- Helper: `ApiService.logout` ends with both tokens removed on every
path. -/
theorem apiLogout_clears (st : Store) (r : Except ApiError Unit) :
    apiLogout st r = ⟨none, none⟩ := by
  rcases r with e | u <;> simp [apiLogout]

/-- C8: logout teardown is unconditional: whatever the server answers to
the logout POST, both tokens end up removed, the resulting store does
not depend on that answer, and the mutation wrapper clears the query
cache on its success path and on its error path alike. -/
theorem logout_teardown_unconditional
    (st : Store) (postResult : Except ApiError Unit) (c : Cache) :
    (apiLogout st postResult).access = none ∧
    (apiLogout st postResult).refresh = none ∧
    (∀ other : Except ApiError Unit,
      apiLogout st postResult = apiLogout st other) ∧
    (logoutMutationOnSuccess c).invalidated = [] ∧
    (logoutMutationOnFailure c).invalidated = [] := by
  refine ⟨?_, ?_, fun other => ?_, rfl, rfl⟩
  · rw [apiLogout_clears]
  · rw [apiLogout_clears]
  · rw [apiLogout_clears, apiLogout_clears]

/-- C9: the request interceptor attaches `Authorization: Bearer <t>`
exactly when the stored access token is a truthy string `t`, and leaves
the (fresh, header-less) config without an Authorization header when no
access token is stored. -/
theorem bearer_header_matches_stored_access
    (st : Store) (cfg : ReqConfig) (h : cfg.authHeader = none) :
    (onRequest st cfg).authHeader =
      st.access.bind (fun t => if t = "" then none else some ("Bearer " ++ t)) := by
  rcases st with ⟨acc, rf⟩
  rcases acc with _ | t
  · simp [onRequest, jsTruthyStr, h]
  · by_cases ht : t = "" <;> simp [onRequest, jsTruthyStr, ht, h]

/-- Witness for C9 at a stored token and at a fresh config. -/
theorem bearer_header_matches_stored_access_witness :
    (⟨false, none⟩ : ReqConfig).authHeader = none ∧
    (onRequest ⟨some "tok", none⟩ ⟨false, none⟩).authHeader =
      (some "tok").bind
        (fun t => if t = "" then none else some ("Bearer " ++ t)) :=
  ⟨rfl, bearer_header_matches_stored_access ⟨some "tok", none⟩ ⟨false, none⟩ rfl⟩

end ReactTimeChat
